import Mathlib

set_option maxRecDepth 40000

/-
Verification of the content-processing workflow
(src/examples/langgraph/content-processor.py).

The node functions (validate_input, process_content, format_output,
handle_error, should_process) and the topology are translated directly from
the Python source.  The StateGraph executor and the per-field merge rule are
library behaviour described in the design document; they are modelled from
the spec where marked.

String-handling conventions of the translation:
 - Python str.strip() is modelled over the ASCII whitespace characters
   (space, tab, newline, carriage return, vertical tab, form feed); the
   workflow only ever manipulates ASCII text.
 - Python str.capitalize() upper-cases the first character and lower-cases
   the rest (ASCII case mapping).
 - Python str.replace('  ', ' ') substitutes non-overlapping occurrences
   scanning left to right, continuing after each replacement.
 - Python s.endswith('.') tests the last character.
 - len(s) counts code points, matching String.length on these ASCII strings.
 - dict.get(key, default) returns the default only when the key is absent;
   every State reachable in this workflow carries all six keys (run()
   seeds them all and merging never removes one), so field reads are total.
-/

def isPySpace (c : Char) : Bool :=
  c = ' ' || c = '\t' || c = '\n' || c = '\r' || c = '\x0b' || c = '\x0c'

def stripList (l : List Char) : List Char :=
  ((l.dropWhile isPySpace).reverse.dropWhile isPySpace).reverse

def pyStrip (s : String) : String :=
  String.mk (stripList s.data)

def replaceDouble : List Char → List Char
  | ' ' :: ' ' :: rest => ' ' :: replaceDouble rest
  | c :: rest => c :: replaceDouble rest
  | [] => []

def pyReplaceDouble (s : String) : String :=
  String.mk (replaceDouble s.data)

def pyCapitalize (s : String) : String :=
  match s.data with
  | [] => ""
  | c :: rest => String.mk (c.toUpper :: rest.map Char.toLower)

def pyEndsWithDot (s : String) : Bool :=
  match s.data.getLast? with
  | some c => c = '.'
  | none => false

def listContainsPat (pat : List Char) : List Char → Bool
  | [] => pat.isEmpty
  | c :: rest => pat.isPrefixOf (c :: rest) || listContainsPat pat rest

def strContains (s pat : String) : Bool :=
  listContainsPat pat.data s.data

/-- The workflow State: the six fields of ContentState.  `messages` is the
append-strategy field (declared with operator.add); the rest are
replace-strategy scalars. -/
structure ContentState where
  messages : List String
  current_step : String
  content : String
  processed_content : String
  final_result : String
  error : String
deriving DecidableEq

/-- A node's partial update: only the fields the node returns are present. -/
structure PartialState where
  messages : Option (List String) := none
  current_step : Option String := none
  content : Option String := none
  processed_content : Option String := none
  final_result : Option String := none
  error : Option String := none
deriving DecidableEq

/-- Modelled from the spec: the framework's merge rule for combining a
node's partial update into State.  `messages` has the append strategy (the
update's list is concatenated after the existing one, order preserved, no
deduplication); every other field is replace; fields absent from the update
keep their prior value. -/
def merge (current : ContentState) (update : PartialState) : ContentState :=
  { messages :=
      match update.messages with
      | none => current.messages
      | some ms => current.messages ++ ms
    current_step := update.current_step.getD current.current_step
    content := update.content.getD current.content
    processed_content := update.processed_content.getD current.processed_content
    final_result := update.final_result.getD current.final_result
    error := update.error.getD current.error }

/-- Modelled from the spec: a run ends Completed with the final merged
State, or Failed with a cause and the State at the point of failure. -/
inductive Outcome where
  | Completed (final : ContentState)
  | Failed (cause : String) (st : ContentState)
deriving DecidableEq

def runState : Outcome → ContentState
  | Outcome.Completed st => st
  | Outcome.Failed _ st => st

def runCompleted : Outcome → Bool
  | Outcome.Completed _ => true
  | Outcome.Failed _ _ => false

/-- validate_input: rejects content that is empty (or strips to empty) and
content longer than 1000 characters; on success trims the content, logs the
raw length and clears the error field. -/
def validate_input (state : ContentState) : PartialState :=
  if state.content = "" ∨ (pyStrip state.content).length = 0 then
    { current_step := some "validate_input"
      error := some "Input content is empty or invalid" }
  else if state.content.length > 1000 then
    { current_step := some "validate_input"
      error := some "Input content is too long (max 1000 characters)" }
  else
    { messages := some ["Input validated: " ++ toString state.content.length ++ " characters"]
      current_step := some "validate_input"
      content := some (pyStrip state.content)
      error := some "" }

/-- The processing chain of process_content: strip, single-pass replacement
of double spaces, capitalize, then append a period unless one ends the
string already. -/
def transformed (content : String) : String :=
  let processed := pyCapitalize (pyReplaceDouble (pyStrip content))
  if pyEndsWithDot processed then processed else processed ++ "."

def process_content (state : ContentState) : PartialState :=
  { messages := some ["Content processed: " ++ toString (transformed state.content).length ++ " characters"]
    current_step := some "process_content"
    processed_content := some (transformed state.content)
    error := some "" }

/-- The f-string of format_output, stripped: summary of the content length,
the processed length and the number of log entries so far. -/
def formatResult (content processed : String) (steps : Nat) : String :=
  pyStrip ("\n📝 Processed Content:\n" ++ processed
    ++ "\n\n📊 Statistics:\n- Original length: " ++ toString content.length
    ++ " characters\n- Processed length: " ++ toString processed.length
    ++ " characters\n- Processing steps: " ++ toString steps
    ++ "\n        ")

def format_output (state : ContentState) : PartialState :=
  { messages := some ["Output formatted successfully"]
    current_step := some "format_output"
    final_result := some (formatResult state.content state.processed_content state.messages.length)
    error := some "" }

/-- handle_error reads state['error'].  The Python default
'Unknown error occurred' of dict.get applies only when the key is absent;
every State of this workflow carries the error key (run() seeds it), so
the read is the plain field. -/
def handle_error (state : ContentState) : PartialState :=
  { messages := some ["Error handled: " ++ state.error]
    current_step := some "handle_error"
    final_result := some ("❌ Error: " ++ state.error)
    error := some state.error }

/-- The validation router: the error label when the error field is truthy
(a non-empty string), the process label otherwise. -/
def should_process (state : ContentState) : String :=
  if state.error = "" then "process" else "error"

/-- The label-to-destination mapping of the conditional edge out of
validate_input. -/
def conditionalMap (label : String) : Option String :=
  if label = "process" then some "process_content"
  else if label = "error" then some "handle_error"
  else none

/-- The node registry of _create_workflow. -/
def nodeFn (name : String) : Option (ContentState → PartialState) :=
  if name = "validate_input" then some validate_input
  else if name = "process_content" then some process_content
  else if name = "format_output" then some format_output
  else if name = "handle_error" then some handle_error
  else none

/-- The edge registry of _create_workflow: validate_input has the
conditional edge (router should_process, consulted on the freshly merged
State); process_content and format_output and handle_error have fixed
destinations; the terminal marker is the END sentinel. -/
def nextNode (node : String) (s : ContentState) : Option String :=
  if node = "validate_input" then conditionalMap (should_process s)
  else if node = "process_content" then some "format_output"
  else if node = "format_output" then some "__end__"
  else if node = "handle_error" then some "__end__"
  else none

/-- Modelled from the spec: the graph executor.  From the current node it
applies the node, merges the update, resolves the next node (through the
router at the conditional edge) and repeats until the terminal marker, with
a step bound guarding against cycles (default ceiling 50). -/
def exec : Nat → String → ContentState → Outcome
  | 0, _, s => Outcome.Failed "StepLimitExceeded" s
  | fuel + 1, node, s =>
    if node = "__end__" then Outcome.Completed s
    else
      match nodeFn node with
      | none => Outcome.Failed "UnknownNode" s
      | some f =>
        match nextNode node (merge s (f s)) with
        | none => Outcome.Failed "RouterInconsistency" (merge s (f s))
        | some nxt => exec fuel nxt (merge s (f s))

/-- The initial State built by run(): all six fields seeded. -/
def initial_state (content : String) : ContentState :=
  { messages := []
    current_step := ""
    content := content
    processed_content := ""
    final_result := ""
    error := "" }

/-- ContentProcessor.run: invoke the compiled workflow from the entry point
on the seeded initial State. -/
def run (content : String) : Outcome :=
  exec 50 "validate_input" (initial_state content)

/-
Helper lemmas.
-/

lemma exec_succ (fuel : Nat) (node : String) (s : ContentState) :
    exec (fuel + 1) node s =
      if node = "__end__" then Outcome.Completed s
      else
        match nodeFn node with
        | none => Outcome.Failed "UnknownNode" s
        | some f =>
          match nextNode node (merge s (f s)) with
          | none => Outcome.Failed "RouterInconsistency" (merge s (f s))
          | some nxt => exec fuel nxt (merge s (f s)) := rfl

lemma exec_step (fuel : Nat) (node : String) (s : ContentState)
    (f : ContentState → PartialState) (nxt : String)
    (h0 : ¬ node = "__end__") (hf : nodeFn node = some f)
    (hn : nextNode node (merge s (f s)) = some nxt) :
    exec (fuel + 1) node s = exec fuel nxt (merge s (f s)) := by
  rw [exec_succ, if_neg h0, hf]
  show (match nextNode node (merge s (f s)) with
        | none => Outcome.Failed "RouterInconsistency" (merge s (f s))
        | some nxt => exec fuel nxt (merge s (f s))) = _
  rw [hn]

lemma validate_input_success (st : ContentState)
    (h1 : ¬(st.content = "" ∨ (pyStrip st.content).length = 0))
    (h2 : ¬(st.content.length > 1000)) :
    validate_input st =
      { messages := some ["Input validated: " ++ toString st.content.length ++ " characters"]
        current_step := some "validate_input"
        content := some (pyStrip st.content)
        error := some "" } := by
  unfold validate_input
  rw [if_neg h1, if_neg h2]

lemma validate_input_empty (st : ContentState)
    (h : (pyStrip st.content).length = 0) :
    validate_input st =
      { current_step := some "validate_input"
        error := some "Input content is empty or invalid" } := by
  unfold validate_input
  rw [if_pos (Or.inr h)]

lemma validate_input_toolong (st : ContentState)
    (h1 : (pyStrip st.content).length ≠ 0) (h2 : st.content.length > 1000) :
    validate_input st =
      { current_step := some "validate_input"
        error := some "Input content is too long (max 1000 characters)" } := by
  have hne : ¬(st.content = "" ∨ (pyStrip st.content).length = 0) := by
    rintro (he | he)
    · exact h1 (by rw [he]; rfl)
    · exact h1 he
  unfold validate_input
  rw [if_neg hne, if_pos h2]

/-- The final State of a successful run, symbolically in the input. -/
lemma run_success (c : String) (h2 : (pyStrip c).length ≠ 0) (h3 : c.length ≤ 1000) :
    run c = Outcome.Completed
      { messages := ["Input validated: " ++ toString c.length ++ " characters",
                     "Content processed: " ++ toString (transformed (pyStrip c)).length ++ " characters",
                     "Output formatted successfully"]
        current_step := "format_output"
        content := pyStrip c
        processed_content := transformed (pyStrip c)
        final_result := formatResult (pyStrip c) (transformed (pyStrip c)) 2
        error := "" } := by
  have h1 : ¬((initial_state c).content = "" ∨ (pyStrip (initial_state c).content).length = 0) := by
    rintro (he | he)
    · exact h2 (by rw [show c = "" from he]; rfl)
    · exact h2 he
  have h4 : ¬((initial_state c).content.length > 1000) := by
    show ¬(c.length > 1000); omega
  have e1 := validate_input_success (initial_state c) h1 h4
  unfold run
  show exec (49 + 1) "validate_input" (initial_state c) = _
  rw [exec_step 49 "validate_input" (initial_state c) validate_input "process_content"
    (by decide) rfl (by rw [e1]; rfl)]
  rw [e1]
  rfl

/-- The final State of a run whose content strips to the empty string. -/
lemma run_error_empty (c : String) (h : (pyStrip c).length = 0) :
    run c = Outcome.Completed
      { messages := ["Error handled: Input content is empty or invalid"]
        current_step := "handle_error"
        content := c
        processed_content := ""
        final_result := "❌ Error: Input content is empty or invalid"
        error := "Input content is empty or invalid" } := by
  have e1 := validate_input_empty (initial_state c) h
  unfold run
  show exec (49 + 1) "validate_input" (initial_state c) = _
  rw [exec_step 49 "validate_input" (initial_state c) validate_input "handle_error"
    (by decide) rfl (by rw [e1]; rfl)]
  rw [e1]
  rfl

/-- The final State of a run whose content passes the emptiness check but
exceeds the length bound. -/
lemma run_error_toolong (c : String) (h1 : (pyStrip c).length ≠ 0)
    (h2 : c.length > 1000) :
    run c = Outcome.Completed
      { messages := ["Error handled: Input content is too long (max 1000 characters)"]
        current_step := "handle_error"
        content := c
        processed_content := ""
        final_result := "❌ Error: Input content is too long (max 1000 characters)"
        error := "Input content is too long (max 1000 characters)" } := by
  have e1 := validate_input_toolong (initial_state c) h1 h2
  unfold run
  show exec (49 + 1) "validate_input" (initial_state c) = _
  rw [exec_step 49 "validate_input" (initial_state c) validate_input "handle_error"
    (by decide) rfl (by rw [e1]; rfl)]
  rw [e1]
  rfl

lemma pyEndsWithDot_append_dot (s : String) : pyEndsWithDot (s ++ ".") = true := by
  unfold pyEndsWithDot
  rw [String.data_append, show (".").data = ['.'] from rfl,
    List.getLast?_append_cons s.data '.' []]
  rfl

lemma transformed_endsWithDot (content : String) :
    pyEndsWithDot (transformed content) = true := by
  show pyEndsWithDot
      (if pyEndsWithDot (pyCapitalize (pyReplaceDouble (pyStrip content))) then
        pyCapitalize (pyReplaceDouble (pyStrip content))
      else pyCapitalize (pyReplaceDouble (pyStrip content)) ++ ".") = true
  split
  · assumption
  · exact pyEndsWithDot_append_dot _

lemma replaceDouble_replicate :
    ∀ n : Nat, replaceDouble (List.replicate n ' ') = List.replicate ((n + 1) / 2) ' '
  | 0 => rfl
  | 1 => rfl
  | n + 2 => by
    have ih := replaceDouble_replicate n
    rw [show List.replicate (n + 2) ' ' = ' ' :: ' ' :: List.replicate n ' ' from rfl,
      show replaceDouble (' ' :: ' ' :: List.replicate n ' ')
        = ' ' :: replaceDouble (List.replicate n ' ') from rfl,
      ih, show (n + 2 + 1) / 2 = (n + 1) / 2 + 1 by omega]
    rfl

/-
Claim theorems.
-/

/-- Claim C1, counterexample: the run on the reference input does complete,
but its formatted summary does not reference original length 35 (the input
has 34 characters, and the summary says so). -/
theorem C1_counterexample :
    runCompleted (run "hello world this is a test message") = true ∧
    ("hello world this is a test message").length = 34 ∧
    strContains (runState (run "hello world this is a test message")).final_result
      "Original length: 35" = false := by decide

/-- Claim C1 as amended: on the reference input the run completes with no
error, the transformation yields the capitalized single-spaced string
ending in a period, and the summary references original length 34 (the
actual input length) and transformed length 35. -/
theorem C1_amended :
    run "hello world this is a test message" = Outcome.Completed
      { messages := ["Input validated: 34 characters", "Content processed: 35 characters",
                     "Output formatted successfully"]
        current_step := "format_output"
        content := "hello world this is a test message"
        processed_content := "Hello world this is a test message."
        final_result := "📝 Processed Content:\nHello world this is a test message.\n\n📊 Statistics:\n- Original length: 34 characters\n- Processed length: 35 characters\n- Processing steps: 2"
        error := "" } ∧
    strContains
      "📝 Processed Content:\nHello world this is a test message.\n\n📊 Statistics:\n- Original length: 34 characters\n- Processed length: 35 characters\n- Processing steps: 2"
      "Original length: 34" = true := by decide

/-- Claim C2, counterexample: an input of length 1001 made of spaces only
is caught by the emptiness check, not the length check. -/
theorem C2_counterexample :
    (String.mk (List.replicate 1001 ' ')).length = 1001 ∧
    (validate_input (initial_state (String.mk (List.replicate 1001 ' ')))).error =
      some "Input content is empty or invalid" ∧
    (validate_input (initial_state (String.mk (List.replicate 1001 ' ')))).error ≠
      some "Input content is too long (max 1000 characters)" := by decide

/-- Claim C2 as amended: the empty input gets the empty-or-invalid error
and an input of length 1001 that does not strip to empty gets the too-long
error; both runs take the error path to handle_error, which writes a
formatted error string containing the message, and both runs complete. -/
theorem C2_amended (s : String) (h1 : s.length = 1001)
    (h2 : (pyStrip s).length ≠ 0) :
    (validate_input (initial_state "")).error = some "Input content is empty or invalid" ∧
    run "" = Outcome.Completed
      { messages := ["Error handled: Input content is empty or invalid"]
        current_step := "handle_error"
        content := ""
        processed_content := ""
        final_result := "❌ Error: Input content is empty or invalid"
        error := "Input content is empty or invalid" } ∧
    (validate_input (initial_state s)).error =
      some "Input content is too long (max 1000 characters)" ∧
    run s = Outcome.Completed
      { messages := ["Error handled: Input content is too long (max 1000 characters)"]
        current_step := "handle_error"
        content := s
        processed_content := ""
        final_result := "❌ Error: Input content is too long (max 1000 characters)"
        error := "Input content is too long (max 1000 characters)" } ∧
    strContains "❌ Error: Input content is empty or invalid"
      "Input content is empty or invalid" = true ∧
    strContains "❌ Error: Input content is too long (max 1000 characters)"
      "Input content is too long (max 1000 characters)" = true := by
  have hlen : s.length > 1000 := by omega
  refine ⟨rfl, run_error_empty "" rfl, ?_, run_error_toolong s h2 hlen, by decide, by decide⟩
  rw [validate_input_toolong (initial_state s) h2 hlen]

theorem C2_witness :
    (String.mk (List.replicate 1001 'a')).length = 1001 ∧
    run (String.mk (List.replicate 1001 'a')) = Outcome.Completed
      { messages := ["Error handled: Input content is too long (max 1000 characters)"]
        current_step := "handle_error"
        content := String.mk (List.replicate 1001 'a')
        processed_content := ""
        final_result := "❌ Error: Input content is too long (max 1000 characters)"
        error := "Input content is too long (max 1000 characters)" } :=
  ⟨by decide,
   (C2_amended (String.mk (List.replicate 1001 'a')) (by decide) (by decide)).2.2.2.1⟩

/-- Claim C3: the validation router selects the process destination
(process_content) exactly when the error field is empty, and the error
destination (handle_error) exactly when it is non-empty. -/
theorem C3_routing (s : ContentState) :
    (s.error = "" → should_process s = "process" ∧
      conditionalMap (should_process s) = some "process_content") ∧
    (s.error ≠ "" → should_process s = "error" ∧
      conditionalMap (should_process s) = some "handle_error") := by
  constructor
  · intro h
    have hp : should_process s = "process" := by unfold should_process; rw [if_pos h]
    exact ⟨hp, by rw [hp]; rfl⟩
  · intro h
    have hp : should_process s = "error" := by unfold should_process; rw [if_neg h]
    exact ⟨hp, by rw [hp]; rfl⟩

theorem C3_witness :
    should_process
      { messages := [], current_step := "", content := "c",
        processed_content := "", final_result := "", error := "" } = "process" ∧
    should_process
      { messages := [], current_step := "", content := "c",
        processed_content := "", final_result := "", error := "x" } = "error" :=
  ⟨((C3_routing _).1 rfl).1, ((C3_routing _).2 (by decide)).1⟩

/-- Claim C4, counterexample: a run of three interior spaces is not
collapsed to a single space; the single-pass double-space replacement
leaves two consecutive spaces in the output. -/
theorem C4_counterexample :
    (process_content
      { messages := [], current_step := "", content := "a   b",
        processed_content := "", final_result := "", error := "x" }).processed_content =
      some "A  b." ∧
    strContains "A  b." "  " = true := by decide

/-- Claim C4 as amended: the transformation node replaces non-overlapping
pairs of consecutive spaces in one left-to-right pass (a run of n spaces
becomes (n+1)/2 spaces, and non-space whitespace such as tabs is left
untouched), applies the capitalization rule, ensures the output ends with
a period, appends exactly one log entry describing the output length, and
clears the error field. -/
theorem C4_amended (st : ContentState) (n : Nat) :
    (process_content st).processed_content = some (transformed st.content) ∧
    pyEndsWithDot (transformed st.content) = true ∧
    (process_content st).error = some "" ∧
    (process_content st).messages =
      some ["Content processed: " ++ toString (transformed st.content).length ++ " characters"] ∧
    replaceDouble (List.replicate n ' ') = List.replicate ((n + 1) / 2) ' ' ∧
    replaceDouble [ '\t', '\t' ] = [ '\t', '\t' ] :=
  ⟨rfl, transformed_endsWithDot st.content, rfl, rfl, replaceDouble_replicate n, rfl⟩

theorem C4_witness :
    (process_content
      { messages := [], current_step := "", content := "x  y",
        processed_content := "", final_result := "", error := "e" }).processed_content =
      some (transformed "x  y") ∧
    replaceDouble (List.replicate 5 ' ') = List.replicate 3 ' ' :=
  ⟨(C4_amended
      { messages := [], current_step := "", content := "x  y",
        processed_content := "", final_result := "", error := "e" } 5).1,
   (C4_amended
      { messages := [], current_step := "", content := "x  y",
        processed_content := "", final_result := "", error := "e" } 5).2.2.2.2.1⟩

/-- Claim C5: merging a partial update leaves every field absent from the
update unchanged; in particular the failure branches of validate_input
(which return only current_step and error) leave content, messages,
processed_content and final_result exactly as they were. -/
theorem C5_frame (s : ContentState) (u : PartialState) :
    (u.messages = none → (merge s u).messages = s.messages) ∧
    (u.current_step = none → (merge s u).current_step = s.current_step) ∧
    (u.content = none → (merge s u).content = s.content) ∧
    (u.processed_content = none → (merge s u).processed_content = s.processed_content) ∧
    (u.final_result = none → (merge s u).final_result = s.final_result) ∧
    (u.error = none → (merge s u).error = s.error) ∧
    ((pyStrip s.content).length = 0 →
      (merge s (validate_input s)).messages = s.messages ∧
      (merge s (validate_input s)).content = s.content ∧
      (merge s (validate_input s)).processed_content = s.processed_content ∧
      (merge s (validate_input s)).final_result = s.final_result ∧
      (merge s (validate_input s)).current_step = "validate_input" ∧
      (merge s (validate_input s)).error = "Input content is empty or invalid") := by
  refine ⟨?_, ?_, ?_, ?_, ?_, ?_, ?_⟩
  · intro h; simp [merge, h]
  · intro h; simp [merge, h]
  · intro h; simp [merge, h]
  · intro h; simp [merge, h]
  · intro h; simp [merge, h]
  · intro h; simp [merge, h]
  · intro h
    rw [validate_input_empty s h]
    exact ⟨rfl, rfl, rfl, rfl, rfl, rfl⟩

theorem C5_witness :
    (merge
      { messages := ["m"], current_step := "old", content := "keep",
        processed_content := "kp", final_result := "kf", error := "" }
      { current_step := some "validate_input", error := some "boom" }).content = "keep" ∧
    (merge
      { messages := ["m"], current_step := "old", content := "keep",
        processed_content := "kp", final_result := "kf", error := "" }
      { current_step := some "validate_input", error := some "boom" }).messages = ["m"] :=
  ⟨(C5_frame _ _).2.2.1 rfl, (C5_frame _ _).1 rfl⟩

/-- Claim C6: the workflow is deterministic — the run is a pure function of
its input, so two runs on the same input give the same final State and the
same outcome. -/
theorem C6_determinism (c : String) :
    run c = run c ∧
    runState (run c) = runState (run c) ∧
    runCompleted (run c) = runCompleted (run c) :=
  ⟨rfl, rfl, rfl⟩

theorem C6_witness :
    run "determinism check" = run "determinism check" :=
  (C6_determinism "determinism check").1

/-- Claim C7: merging two updates that both supply the append-strategy
messages field equals merging one update carrying the concatenation —
order preserved, duplicates retained. -/
theorem C7_merge_append_assoc (s : ContentState) (u1 u2 : PartialState)
    (l1 l2 : List String) (h1 : u1.messages = some l1) (h2 : u2.messages = some l2) :
    (merge (merge s u1) u2).messages = s.messages ++ (l1 ++ l2) ∧
    (merge s { messages := some (l1 ++ l2) }).messages = s.messages ++ (l1 ++ l2) := by
  constructor
  · show (match u2.messages with
          | none => (merge s u1).messages
          | some ms => (merge s u1).messages ++ ms) = _
    rw [h2]
    show (match u1.messages with
          | none => s.messages
          | some ms => s.messages ++ ms) ++ l2 = _
    rw [h1, List.append_assoc]
  · rfl

theorem C7_witness :
    (merge
      (merge
        { messages := ["a"], current_step := "", content := "",
          processed_content := "", final_result := "", error := "" }
        { messages := some ["b", "c"] })
      { messages := some ["b"] }).messages = ["a", "b", "c", "b"] ∧
    (merge
      { messages := ["a"], current_step := "", content := "",
        processed_content := "", final_result := "", error := "" }
      { messages := some (["b", "c"] ++ ["b"]) }).messages = ["a", "b", "c", "b"] :=
  C7_merge_append_assoc _ _ _ ["b", "c"] ["b"] rfl rfl

/-- Claim C8, counterexample: on a State whose error field is the empty
string, handle_error does not fall back to a generic unknown-error message;
it writes the formatted message built from the empty string. -/
theorem C8_counterexample :
    (handle_error
      { messages := [], current_step := "", content := "c",
        processed_content := "", final_result := "", error := "" }).final_result =
      some "❌ Error: " ∧
    strContains "❌ Error: " "Unknown error occurred" = false ∧
    strContains "❌ Error: " "unknown" = false := by decide

/-- Claim C8 as amended: on every State whose error field is the empty
string, handle_error writes the formatted error message built from that
empty string (not from any fallback) into final_result, and appends the
handled-error log entry; the Python fallback applies only when the error
key is absent from the state mapping, which cannot occur in this workflow
because run() seeds every field. -/
theorem C8_amended (st : ContentState) (h : st.error = "") :
    handle_error st =
      { messages := some ["Error handled: "]
        current_step := some "handle_error"
        final_result := some "❌ Error: "
        error := some "" } := by
  unfold handle_error
  rw [h]
  rfl

theorem C8_witness :
    handle_error
      { messages := ["m"], current_step := "x", content := "c",
        processed_content := "p", final_result := "f", error := "" } =
      { messages := some ["Error handled: "]
        current_step := some "handle_error"
        final_result := some "❌ Error: "
        error := some "" } :=
  C8_amended
    { messages := ["m"], current_step := "x", content := "c",
      processed_content := "p", final_result := "f", error := "" } rfl

/-- Claim C9: the emptiness check takes precedence over the length check —
on any State whose content consists only of whitespace characters (of any
length, in particular beyond 1000), validate_input reports the
empty-or-invalid error and never the too-long error. -/
theorem C9_whitespace_precedence (st : ContentState)
    (h : ∀ c ∈ st.content.data, isPySpace c = true) :
    (validate_input st).error = some "Input content is empty or invalid" ∧
    (validate_input st).error ≠ some "Input content is too long (max 1000 characters)" := by
  have hd : st.content.data.dropWhile isPySpace = [] :=
    List.dropWhile_eq_nil_iff.mpr h
  have hs : (pyStrip st.content).length = 0 := by
    unfold pyStrip stripList
    rw [hd]
    rfl
  rw [validate_input_empty st hs]
  exact ⟨rfl, by decide⟩

theorem C9_witness :
    (validate_input (initial_state (String.mk (List.replicate 1002 '\t')))).error =
      some "Input content is empty or invalid" ∧
    (validate_input (initial_state (String.mk (List.replicate 1002 '\t')))).error ≠
      some "Input content is too long (max 1000 characters)" :=
  C9_whitespace_precedence (initial_state (String.mk (List.replicate 1002 '\t')))
    (fun c hc => by rw [List.eq_of_mem_replicate hc]; rfl)

/-- Claim C10: on the success path the summary is built from the content
field as stored at formatting time, which is the trimmed content written
back by validate_input — the reported original length is the trimmed
length, not the raw input length. -/
theorem C10_trimmed_length (c : String) (h2 : (pyStrip c).length ≠ 0)
    (h3 : c.length ≤ 1000) :
    runCompleted (run c) = true ∧
    (runState (run c)).content = pyStrip c ∧
    (runState (run c)).final_result =
      formatResult (pyStrip c) (transformed (pyStrip c)) 2 := by
  rw [run_success c h2 h3]
  exact ⟨rfl, rfl, rfl⟩

theorem C10_witness :
    ((pyStrip "  hi  ").length ≠ 0 ∧ ("  hi  ").length ≤ 1000) ∧
    (runState (run "  hi  ")).content = pyStrip "  hi  " ∧
    (runState (run "  hi  ")).final_result =
      formatResult (pyStrip "  hi  ") (transformed (pyStrip "  hi  ")) 2 ∧
    pyStrip "  hi  " = "hi" ∧
    strContains (runState (run "  hi  ")).final_result "- Original length: 2 characters" = true ∧
    strContains (runState (run "  hi  ")).final_result "- Original length: 6" = false :=
  ⟨⟨by decide, by decide⟩,
   (C10_trimmed_length "  hi  " (by decide) (by decide)).2.1,
   (C10_trimmed_length "  hi  " (by decide) (by decide)).2.2,
   by decide, by decide, by decide⟩
